import Mathlib

/-!
Verification of the tabpfn-wrapper credential and model-lifecycle core.

The Python source is shallowly embedded: pure helpers become Lean
functions, stateful orchestration becomes explicit state passing, the
database session becomes a list of rows plus an explicit success flag for
the commit, and every fallible operation returns an Except value.
External collaborators (the remote TabPFN client library, the Fernet
cipher of the cryptography package, the bcrypt verifier of passlib) are
modelled as explicit parameters constrained only by their documented
contracts.
-/

/- ### String helpers (substring containment as in Python's `in`) -/

/-- Bool-valued test that the first list is a prefix of the second. -/
def listStartsWith : List Char → List Char → Bool
  | [], _ => true
  | _ :: _, [] => false
  | a :: as, b :: bs => a == b && listStartsWith as bs

/-- Bool-valued test that the first list occurs as a contiguous sublist of
the second, mirroring Python's substring operator. -/
def listContainsSub (needle : List Char) : List Char → Bool
  | [] => needle.isEmpty
  | c :: t => listStartsWith needle (c :: t) || listContainsSub needle t

/-- Substring containment on strings. `strContains hay needle` mirrors the
Python expression `needle in hay`. -/
def strContains (hay needle : String) : Bool :=
  listContainsSub needle.data hay.data

/-- ASCII lower-casing of a string, mirroring Python's `str.lower` on the
ASCII keyword material used by the classifier. -/
def lowerStr (s : String) : String :=
  String.mk (s.data.map Char.toLower)

/- ### Downstream Bridge error classification
(`src/tabpfn_api/tabpfn_interface/client.py`, `verify_tabpfn_token`) -/

/-- The four stable outcomes the bridge distinguishes for a downstream
failure: the if/elif/else chain of `verify_tabpfn_token`. -/
inductive DownstreamOutcome where
  | authInvalid
  | validButLimited
  | unreachable
  | unknownFailure
  deriving DecidableEq, Repr

/-- Keyword table of the authentication/invalid-token branch of
`verify_tabpfn_token` (client.py lines 128-133). -/
def authKeywords : List String :=
  ["authentication failed", "invalid token", "unauthorized", "401"]

/-- Keyword table of the rate/usage-limit branch of `verify_tabpfn_token`
(client.py lines 139-145). -/
def limitKeywords : List String :=
  ["usage limit", "rate limit", "quota exceeded", "too many requests", "429"]

/-- Keyword table of the connection-failure branch of `verify_tabpfn_token`
(client.py lines 152-160). -/
def connectionKeywords : List String :=
  ["connection error", "connection refused", "timeout",
   "network is unreachable", "dns lookup failed", "service unavailable", "503"]

/-- Classification of a stringified downstream error by the if/elif chain
of `verify_tabpfn_token`: the message is lower-cased once and each keyword
table is probed by substring containment, auth keywords first, then
limit keywords, then connection keywords, else the unknown fallback. -/
def classifyError (msg : String) : DownstreamOutcome :=
  let m := lowerStr msg
  if authKeywords.any (fun k => strContains m k) then .authInvalid
  else if limitKeywords.any (fun k => strContains m k) then .validButLimited
  else if connectionKeywords.any (fun k => strContains m k) then .unreachable
  else .unknownFailure

/-- The boolean `verify_tabpfn_token` returns for each classified outcome:
auth errors and connection errors and unknown errors yield False, a
rate/usage limit yields True (client.py lines 135, 148, 162, 172). -/
def outcomeResult : DownstreamOutcome → Bool
  | .authInvalid => false
  | .validButLimited => true
  | .unreachable => false
  | .unknownFailure => false

/-- A call to the downstream usage probe either succeeds or raises an
exception carrying a message. -/
def DownstreamCall : Type := Option String

/-- Embedding of `verify_tabpfn_token`: a successful usage fetch yields
True; an exception is classified from its stringified message and the
branch's boolean is returned. No exception escapes this function: every
downstream error, connection errors included, is converted to a Bool
(client.py lines 101-172). -/
def verify_tabpfn_token : DownstreamCall → Bool
  | none => true
  | some msg => outcomeResult (classifyError msg)

/- ### Credential Vault primitives
(`src/tabpfn_api/core/security.py`) -/

/-- ASCII code of the character at a given index of the URL-safe base64
alphabet, as used by `base64.urlsafe_b64encode`. -/
def b64Char (n : Nat) : Nat :=
  if n < 26 then 65 + n
  else if n < 52 then 97 + (n - 26)
  else if n < 62 then 48 + (n - 52)
  else if n = 62 then 45
  else 95

/-- URL-safe base64 encoding of a byte list with padding, mirroring
Python's `base64.urlsafe_b64encode`. -/
def b64urlEncode : List Nat → List Nat
  | [] => []
  | [b1] => [b64Char (b1 / 4), b64Char (b1 % 4 * 16), 61, 61]
  | [b1, b2] => [b64Char (b1 / 4), b64Char (b1 % 4 * 16 + b2 / 16),
                 b64Char (b2 % 16 * 4), 61]
  | b1 :: b2 :: b3 :: rest =>
      b64Char (b1 / 4) :: b64Char (b1 % 4 * 16 + b2 / 16) ::
      b64Char (b2 % 16 * 4 + b3 / 64) :: b64Char (b3 % 64) ::
      b64urlEncode rest

/-- Embedding of `_get_fernet_key` (security.py lines 43-51): the master
secret's UTF-8 bytes are rejected when fewer than 32, otherwise the first
32 bytes are base64-encoded to form the Fernet key. -/
def _get_fernet_key (secretKey : List Nat) : Except String (List Nat) :=
  if secretKey.length < 32 then
    .error "SECRET_KEY must be at least 32 bytes long for Fernet encryption."
  else
    .ok (b64urlEncode (secretKey.take 32))

/-- Embedding of the module-level initialization (security.py lines
53-58): `Fernet(_get_fernet_key())` runs once at import time; a ValueError
is re-raised as a RuntimeError, preventing process startup. -/
def initFernetKey (secretKey : List Nat) : Except String (List Nat) :=
  match _get_fernet_key secretKey with
  | .ok k => .ok k
  | .error e => .error ("Failed to initialize Fernet encryption: " ++ e)

/-- The Fernet cipher of the external cryptography library, modelled by
its interface: authenticated encryption to an opaque ciphertext and
fallible decryption. Its documented contract (decrypting a ciphertext it
produced returns the original plaintext) is taken as a hypothesis where
needed. -/
structure FernetCipher (CT : Type) where
  enc : String → CT
  dec : CT → Except Unit String

/-- Embedding of `encrypt_token` (security.py lines 60-62): encrypt the
token with the process-wide Fernet cipher. -/
def encrypt_token {CT : Type} (f : FernetCipher CT) (t : String) : CT :=
  f.enc t

/-- Embedding of `decrypt_token` (security.py lines 64-76): a library
InvalidToken failure is re-raised with a fixed message, never swallowed. -/
def decrypt_token {CT : Type} (f : FernetCipher CT) (ct : CT) : Except String String :=
  match f.dec ct with
  | .ok s => .ok s
  | .error _ => .error "Could not decrypt token. Key mismatch or data corruption."

/- ### Account rows and the authentication resolver
(`src/tabpfn_api/core/security.py`, `get_current_user`) -/

/-- An Account row. The `tabpfn_api/models/user.py` module itself is not
among the provided sources; the field names are taken from its uses in
security.py and auth_service.py and from the spec's Account data model:
an immutable id, the bcrypt hash of the local API key, and the Fernet
ciphertext of the TabPFN token (here over an opaque byte list). -/
structure UserRow where
  id : Nat
  hashed_api_key : String
  encrypted_tabpfn_token : List Nat
  deriving DecidableEq, Repr

/-- Outcome of the authentication dependency: the resolved user, the 401
credentials failure, or the 500 internal failure. -/
inductive AuthOutcome where
  | ok (u : UserRow)
  | unauthenticated
  | internalError
  deriving DecidableEq, Repr

/-- The for-loop of `get_current_user` (security.py lines 114-119):
scan the fetched users and stop at the first whose stored hash verifies
against the presented key. -/
def findMatchedUser (verify : String → String → Bool) (key : String) :
    List UserRow → Option UserRow
  | [] => none
  | u :: rest =>
      if verify key u.hashed_api_key then some u
      else findMatchedUser verify key rest

/-- Embedding of `get_current_user` (security.py lines 86-138). The
database fetch either yields the list of all user rows or faults; a fault
is mapped to the 500 internal error, no match to the 401 credentials
error, and the first matching row is returned. The hash verifier
(passlib's bcrypt verify) is an explicit parameter. -/
def get_current_user (verify : String → String → Bool) (plainKey : String)
    (fetch : Except Unit (List UserRow)) : AuthOutcome :=
  match fetch with
  | .error _ => .internalError
  | .ok users =>
      match findMatchedUser verify plainKey users with
      | some u => .ok u
      | none => .unauthenticated

/- ### Registration flow
(`src/tabpfn_api/services/auth_service.py`, `setup_user`) -/

/-- Outcome of `setup_user`: the issued plaintext key, or one of the three
error kinds declared in auth_service.py (InvalidTabPFNTokenError,
AuthServiceDownstreamUnavailableError, AuthServiceError). -/
inductive SetupResult where
  | apiKey (k : String)
  | invalidToken
  | downstreamUnavailable
  | serviceError
  deriving DecidableEq, Repr

/-- Embedding of `setup_user` (auth_service.py lines 31-100). The token is
verified through the bridge; since `verify_tabpfn_token` in client.py
converts every downstream exception into a Bool and client.py defines no
TabPFNConnectionError, no connectivity exception can reach the
`except TabPFNConnectionError` arm, which is therefore absent from the
embedding. A False verification raises InvalidTabPFNTokenError. Otherwise
a key is generated, hashed, the token encrypted, and one row committed;
a persistence failure rolls back (the row list is unchanged) and raises
the generic AuthServiceError. The key generator's output, the hash
function and the encryption function are explicit parameters. -/
def setup_user (hashKey : String → String) (encryptTok : String → List Nat)
    (call : DownstreamCall) (newKey tabpfnToken : String) (newId : Nat)
    (db : List UserRow) (commitOk : Bool) : SetupResult × List UserRow :=
  if verify_tabpfn_token call then
    if commitOk then
      (.apiKey newKey, db ++ [⟨newId, hashKey newKey, encryptTok tabpfnToken⟩])
    else
      (.serviceError, db)
  else
    (.invalidToken, db)

/- ### Tabular shape validation
(`src/tabpfn_api/schemas/model.py`, `ModelFitRequest.check_dimensions_match`) -/

/-- Embedding of the `check_dimensions_match` model validator
(schemas/model.py lines 54-76), in source order: the defensive early
return on an empty features or target list, the uniform-row-length check,
the row-count versus target-length check, and the feature-name count
check (with its empty-row guard) when names are supplied. -/
def check_dimensions_match {α β : Type} (features : List (List α))
    (target : List β) (featureNames : Option (List String)) : Except String Unit :=
  if features.isEmpty || target.isEmpty then .ok ()
  else if !(features.all fun row => row.length == (features.headD []).length) then
    .error "All feature rows must have the same number of columns."
  else if features.length ≠ target.length then
    .error "Number of feature rows must match the number of target values."
  else
    match featureNames with
    | none => .ok ()
    | some ns =>
        if (features.headD []).length == 0 then
          .error "Cannot provide feature names when feature rows are empty."
        else if ns.length ≠ (features.headD []).length then
          .error "Number of feature names must match the number of columns in features."
        else .ok ()

/- ### Model lifecycle service
(`tabpfn_api/services/model_service.py` is imported by api/models.py and
exercised by the tests but its source file is not among the provided
sources; its operations are modelled from the spec, §4.5.) -/

/-- Error kinds raised by the model service, as imported in
api/models.py: the downstream-unavailable kind and the generic service
error carrying a message. -/
inductive ModelServiceErr where
  | downstreamUnavailable
  | serviceError (msg : String)
  deriving DecidableEq, Repr

/-- Modelled from the spec: the decryption step of the missing
`model_service.train_new_model` (spec §4.5 step 1) — the account's stored
secret is decrypted first and a decryption failure is re-raised as a
service error whose message names the decryption failure, as exercised by
test_api_models.py (decrypt_token patched to raise InvalidToken). -/
def train_decrypt_step {CT : Type} (f : FernetCipher CT) (ct : CT) :
    Except ModelServiceErr String :=
  match decrypt_token f ct with
  | .ok secret => .ok secret
  | .error _ => .error (.serviceError "Failed to decrypt TabPFN token")

/-- Modelled from the spec: the missing `model_service.train_new_model`
(spec §4.5) — decrypt the stored secret, then perform the remote fit call
with the decrypted secret. -/
def train_new_model_result {CT : Type} (f : FernetCipher CT) (ct : CT)
    (remoteFit : String → Except ModelServiceErr String) :
    Except ModelServiceErr String :=
  match train_decrypt_step f ct with
  | .error e => .error e
  | .ok secret => remoteFit secret

/-- An HTTP-level reply of the routing layer: a created/ok payload or an
error status code with a detail string. -/
inductive HttpReply where
  | created (payload : String)
  | status (code : Nat) (detail : String)
  deriving DecidableEq, Repr

/-- Embedding of the error mapping of the `fit_new_model` endpoint
(api/models.py lines 61-110): downstream-unavailable maps to 503; a
service error whose message mentions decryption or metadata saving maps
to 500 with a fixed opaque detail; other service errors map to 503. -/
def fit_new_model_handler (svc : Except ModelServiceErr String) : HttpReply :=
  match svc with
  | .ok mid => .created mid
  | .error .downstreamUnavailable =>
      .status 503 "The TabPFN service is currently unavailable for model training. Please try again later."
  | .error (.serviceError msg) =>
      if strContains msg "decrypt" || strContains msg "save model metadata" then
        .status 500 "An internal error occurred while processing your request."
      else
        .status 503 ("Failed to train model: " ++ msg)

/-- A ModelRecord row, with the field names of the ModelMetadata model
(`src/tabpfn_api/models/model.py`): the externally exposed UUID, the
remote train-set handle, the owning user's id, and the training feature
count. -/
structure ModelRecord where
  internal_model_id : String
  tabpfn_train_set_uid : String
  user_id : Nat
  feature_count : Nat
  deriving DecidableEq, Repr

/-- Outcome of a prediction request inside the core. -/
inductive PredictOutcome where
  | ok (preds : List Int)
  | notFound
  | accessDenied
  | decryptionError
  | inputError (expected actual : Nat)
  | downstream
  deriving DecidableEq, Repr

/-- Modelled from the spec: the missing `model_service.get_predictions`
(spec §4.5) — look up the ModelRecord by internal_model_id (absence is
NotFound), check ownership against the caller's account id (mismatch is
AccessDenied and stops before any remote work), decrypt the caller's
stored secret, validate the submitted column count against the stored
feature_count, and only then perform the remote predict call. The second
component counts remote predict invocations, corroborated by the
not-found/ownership tests of test_api_models.py. -/
def get_predictions {CT : Type} (f : FernetCipher CT)
    (records : List ModelRecord) (accountId : Nat) (mid : String)
    (ct : CT) (features : List (List Int))
    (remotePredict : String → String → Except Unit (List Int)) :
    PredictOutcome × Nat :=
  match records.find? (fun r => r.internal_model_id == mid) with
  | none => (.notFound, 0)
  | some r =>
      if r.user_id ≠ accountId then (.accessDenied, 0)
      else
        match decrypt_token f ct with
        | .error _ => (.decryptionError, 0)
        | .ok secret =>
            let cols := (features.headD []).length
            if cols ≠ r.feature_count then (.inputError r.feature_count cols, 0)
            else
              match remotePredict secret r.tabpfn_train_set_uid with
              | .ok p => (.ok p, 1)
              | .error _ => (.downstream, 1)

/-- Modelled from the spec: the fit request path — the request schema's
dimension validator (check_dimensions_match, run by the routing layer
while parsing the request body) precedes the service call, so the remote
fit call (whose invocations the second component counts) happens only
after validation succeeds (spec §4.5 step 2, §6). -/
def fit_request_pipeline {α β : Type} (features : List (List α))
    (target : List β) (featureNames : Option (List String))
    (remoteFit : Unit → Except Unit String) : Except String String × Nat :=
  match check_dimensions_match features target featureNames with
  | .error e => (.error e, 0)
  | .ok _ =>
      match remoteFit () with
      | .ok uid => (.ok uid, 1)
      | .error _ => (.error "Error during TabPFN operation", 1)

/- ### Concrete fixtures used by witnesses -/

/-- A concrete cipher over String ciphertexts whose decryption inverts
its encryption; instantiates the Fernet contract in witnesses. -/
def testCipher : FernetCipher String where
  enc := fun s => s
  dec := fun s => .ok s

/-- A concrete cipher whose decryption always fails, standing for a
Fernet instance whose key no longer matches the stored ciphertexts. -/
def badCipher : FernetCipher String where
  enc := fun s => s
  dec := fun _ => .error ()

/- ### Helper lemmas -/

theorem any_contains_eq_false {l : List String} {m : String}
    (h : l.all (fun k => !(strContains m k)) = true) :
    l.any (fun k => strContains m k) = false := by
  simp only [List.all_eq_true, Bool.not_eq_true'] at h
  simp only [List.any_eq_false]
  intro k hk
  simp [h k hk]

theorem all_append_left {l₁ l₂ : List String} {m : String}
    (h : (l₁ ++ l₂).all (fun k => !(strContains m k)) = true) :
    l₁.all (fun k => !(strContains m k)) = true := by
  simp only [List.all_append, Bool.and_eq_true] at h
  exact h.1

theorem all_append_right {l₁ l₂ : List String} {m : String}
    (h : (l₁ ++ l₂).all (fun k => !(strContains m k)) = true) :
    l₂.all (fun k => !(strContains m k)) = true := by
  simp only [List.all_append, Bool.and_eq_true] at h
  exact h.2

theorem findMatchedUser_append_first (verify : String → String → Bool) (key : String)
    (pre post : List UserRow) (u : UserRow)
    (hpre : ∀ v ∈ pre, verify key v.hashed_api_key = false)
    (hu : verify key u.hashed_api_key = true) :
    findMatchedUser verify key (pre ++ u :: post) = some u := by
  induction pre with
  | nil => simp [findMatchedUser, hu]
  | cons a as ih =>
      have ha := hpre a (by simp)
      simp only [List.cons_append, findMatchedUser, ha, if_false, Bool.false_eq_true, if_neg]
      exact ih (fun v hv => hpre v (by simp [hv]))

theorem findMatchedUser_none (verify : String → String → Bool) (key : String)
    (users : List UserRow)
    (h : ∀ v ∈ users, verify key v.hashed_api_key = false) :
    findMatchedUser verify key users = none := by
  induction users with
  | nil => rfl
  | cons a as ih =>
      have ha := h a (by simp)
      simp only [findMatchedUser, ha, Bool.false_eq_true, if_neg, if_false]
      exact ih (fun v hv => h v (by simp [hv]))

theorem isEmpty_false_of_ne_nil {γ : Type} {l : List γ} (h : l ≠ []) : l.isEmpty = false := by
  cases l with
  | nil => exact absurd rfl h
  | cons a as => rfl

theorem check_error_of_ragged {α β : Type} (features : List (List α)) (target : List β)
    (names : Option (List String)) (hf : features ≠ []) (ht : target ≠ [])
    (hbad : (features.all fun row => row.length == (features.headD []).length) = false) :
    check_dimensions_match features target names
      = .error "All feature rows must have the same number of columns." := by
  unfold check_dimensions_match
  rw [isEmpty_false_of_ne_nil hf, isEmpty_false_of_ne_nil ht, hbad]
  rw [if_neg (by decide : ¬ ((false || false) = true)), if_pos (by decide : (!false) = true)]

theorem check_error_of_count {α β : Type} (features : List (List α)) (target : List β)
    (names : Option (List String)) (hf : features ≠ []) (ht : target ≠ [])
    (hcount : features.length ≠ target.length) :
    ∃ e, check_dimensions_match features target names = .error e := by
  cases hb : (features.all fun row => row.length == (features.headD []).length) with
  | false =>
      exact ⟨"All feature rows must have the same number of columns.",
        check_error_of_ragged features target names hf ht hb⟩
  | true =>
      refine ⟨"Number of feature rows must match the number of target values.", ?_⟩
      unfold check_dimensions_match
      rw [isEmpty_false_of_ne_nil hf, isEmpty_false_of_ne_nil ht, hb]
      rw [if_neg (by decide : ¬ ((false || false) = true)),
        if_neg (by decide : ¬ ((!true) = true)), if_pos hcount]

theorem check_error_of_names {α β : Type} (features : List (List α)) (target : List β)
    (ns : List String) (hf : features ≠ []) (ht : target ≠ [])
    (hlen : ns.length ≠ (features.headD []).length) :
    ∃ e, check_dimensions_match features target (some ns) = .error e := by
  cases hb : (features.all fun row => row.length == (features.headD []).length) with
  | false =>
      exact ⟨"All feature rows must have the same number of columns.",
        check_error_of_ragged features target (some ns) hf ht hb⟩
  | true =>
      by_cases hc : features.length = target.length
      · have hstep : check_dimensions_match features target (some ns)
            = (if ((features.headD []).length == 0) = true then
                Except.error "Cannot provide feature names when feature rows are empty."
              else if ns.length ≠ (features.headD []).length then
                Except.error "Number of feature names must match the number of columns in features."
              else Except.ok ()) := by
          unfold check_dimensions_match
          rw [isEmpty_false_of_ne_nil hf, isEmpty_false_of_ne_nil ht, hb]
          rw [if_neg (by decide : ¬ ((false || false) = true)),
            if_neg (by decide : ¬ ((!true) = true)), if_neg (not_not_intro hc)]
        cases hz : ((features.headD []).length == 0) with
        | true =>
            refine ⟨"Cannot provide feature names when feature rows are empty.", ?_⟩
            rw [hstep, hz, if_pos rfl]
        | false =>
            refine ⟨"Number of feature names must match the number of columns in features.", ?_⟩
            rw [hstep, hz, if_neg (by decide : ¬ (false = true)), if_pos hlen]
      · exact check_error_of_count features target (some ns) hf ht hc

theorem pipeline_of_check_error {α β : Type} (features : List (List α)) (target : List β)
    (names : Option (List String)) (remoteFit : Unit → Except Unit String) (e : String)
    (h : check_dimensions_match features target names = .error e) :
    fit_request_pipeline features target names remoteFit = (.error e, 0) := by
  simp [fit_request_pipeline, h]

/- ### Claim theorems -/

/-- Claim C1: the spec requires a connectivity failure of the downstream
verification call to be thrown by the bridge and surfaced by registration
as DownstreamUnavailable, distinct from the InvalidCredential raised on a
False verification. In the source, verify_tabpfn_token converts a
connection-refused error into the return value False (client.py defines
no TabPFNConnectionError even though auth_service.py imports and catches
one), so setup_user raises InvalidTabPFNTokenError instead of the
downstream-unavailable error: the connectivity case is conflated with the
invalid-credential case. -/
theorem connection_error_conflated_with_invalid_token :
    classifyError "Connection refused" = .unreachable
    ∧ verify_tabpfn_token (some "Connection refused") = false
    ∧ (setup_user (fun s => "h" ++ s) (fun s => s.data.map Char.toNat)
        (some "Connection refused") "k1" "tok" 1 [] true).1 = .invalidToken
    ∧ SetupResult.invalidToken ≠ SetupResult.downstreamUnavailable := by
  refine ⟨by decide, by decide, by decide, by decide⟩

/-- Claim C2: the authentication resolver checks stored accounts one by
one with the hash verifier and returns the first match; when no stored
hash verifies it fails with the 401 credentials error, and a storage
fault during lookup fails with the 500 internal error, an error kind
distinct from the credentials error. -/
theorem resolver_first_match_and_errors (verify : String → String → Bool) (key : String)
    (pre post : List UserRow) (u : UserRow)
    (hpre : ∀ v ∈ pre, verify key v.hashed_api_key = false)
    (hu : verify key u.hashed_api_key = true) :
    get_current_user verify key (.ok (pre ++ u :: post)) = .ok u
    ∧ (∀ users : List UserRow, (∀ v ∈ users, verify key v.hashed_api_key = false) →
        get_current_user verify key (.ok users) = .unauthenticated)
    ∧ get_current_user verify key (.error ()) = .internalError
    ∧ AuthOutcome.internalError ≠ AuthOutcome.unauthenticated := by
  refine ⟨?_, ?_, rfl, by decide⟩
  · simp [get_current_user, findMatchedUser_append_first verify key pre post u hpre hu]
  · intro users h
    simp [get_current_user, findMatchedUser_none verify key users h]

theorem resolver_first_match_and_errors_witness :
    (∀ v ∈ [UserRow.mk 0 "other-hash" []],
        ((fun k h => k == h) : String → String → Bool) "k1" v.hashed_api_key = false)
    ∧ ((fun k h => k == h) : String → String → Bool) "k1" (UserRow.mk 1 "k1" []).hashed_api_key = true
    ∧ get_current_user (fun k h => k == h) "k1"
        (.ok ([UserRow.mk 0 "other-hash" []] ++ UserRow.mk 1 "k1" [] :: []))
      = .ok (UserRow.mk 1 "k1" []) := by
  refine ⟨by decide, by decide, ?_⟩
  exact (resolver_first_match_and_errors (fun k h => k == h) "k1"
    [UserRow.mk 0 "other-hash" []] [] (UserRow.mk 1 "k1" []) (by decide) (by decide)).1

/-- Claim C3: the downstream error classifier works by case-insensitive
substring matching on the stringified error; the literal string
"401 Unauthorized" is classified AuthInvalid with verification result
False, "Rate limit exceeded, 429" is classified ValidButLimited with
verification result True, "Connection refused" is classified Unreachable,
and any string matching none of the keyword tables is classified
UnknownFailure and treated as a failure. -/
theorem classifier_keyword_mapping :
    (classifyError "401 Unauthorized" = .authInvalid
      ∧ outcomeResult (classifyError "401 Unauthorized") = false)
    ∧ (classifyError "Rate limit exceeded, 429" = .validButLimited
      ∧ outcomeResult (classifyError "Rate limit exceeded, 429") = true)
    ∧ classifyError "Connection refused" = .unreachable
    ∧ (∀ s : String,
        (authKeywords ++ limitKeywords ++ connectionKeywords).all
          (fun k => !(strContains (lowerStr s) k)) = true →
        classifyError s = .unknownFailure
          ∧ outcomeResult (classifyError s) = false) := by
  refine ⟨by decide, by decide, by decide, ?_⟩
  intro s h
  have hal := all_append_left h
  have ha := any_contains_eq_false (all_append_left hal)
  have hl := any_contains_eq_false (all_append_right hal)
  have hc := any_contains_eq_false (all_append_right h)
  constructor
  · simp [classifyError, ha, hl, hc]
  · simp [classifyError, ha, hl, hc, outcomeResult]

theorem classifier_keyword_mapping_witness :
    ((authKeywords ++ limitKeywords ++ connectionKeywords).all
      (fun k => !(strContains (lowerStr "wholly unrelated message") k)) = true)
    ∧ classifyError "wholly unrelated message" = .unknownFailure
    ∧ outcomeResult (classifyError "wholly unrelated message") = false := by
  refine ⟨by decide, ?_, ?_⟩
  · exact (classifier_keyword_mapping.2.2.2 "wholly unrelated message" (by decide)).1
  · exact (classifier_keyword_mapping.2.2.2 "wholly unrelated message" (by decide)).2

/-- Claim C4: for a third-party secret that passes downstream
verification, setup_user persists exactly one new account row holding the
hash of the freshly generated local key and the encrypted secret, and
returns the plaintext key; a persistence failure leaves the stored rows
unchanged (rollback) and surfaces as the generic service error; the
plaintext key itself is never among the persisted fields. -/
theorem setup_user_persists_one_row (hashKey : String → String) (encryptTok : String → List Nat)
    (call : DownstreamCall) (k tok : String) (newId : Nat) (db : List UserRow)
    (hvalid : verify_tabpfn_token call = true)
    (hHash : hashKey k ≠ k) :
    setup_user hashKey encryptTok call k tok newId db true
        = (.apiKey k, db ++ [⟨newId, hashKey k, encryptTok tok⟩])
    ∧ setup_user hashKey encryptTok call k tok newId db false = (.serviceError, db)
    ∧ (∀ r ∈ (setup_user hashKey encryptTok call k tok newId db true).2,
        r ∈ db ∨ (r.hashed_api_key ≠ k ∧ r.encrypted_tabpfn_token = encryptTok tok)) := by
  refine ⟨by simp [setup_user, hvalid], by simp [setup_user, hvalid], ?_⟩
  intro r hr
  simp only [setup_user, hvalid, if_true, List.mem_append, List.mem_singleton] at hr
  rcases hr with hr | hr
  · exact Or.inl hr
  · subst hr
    exact Or.inr ⟨hHash, rfl⟩

theorem setup_user_persists_one_row_witness :
    verify_tabpfn_token none = true
    ∧ (fun s => "h" ++ s) "key" ≠ "key"
    ∧ setup_user (fun s => "h" ++ s) (fun s => s.data.map Char.toNat) none "key" "tok" 0 [] true
        = (.apiKey "key",
           [] ++ [⟨0, (fun s => "h" ++ s) "key", (fun s => s.data.map Char.toNat) "tok"⟩]) := by
  refine ⟨rfl, by decide, ?_⟩
  exact (setup_user_persists_one_row (fun s => "h" ++ s) (fun s => s.data.map Char.toNat)
    none "key" "tok" 0 [] rfl (by decide)).1

/-- Claim C5: a prediction request for an internal_model_id that no
ModelRecord carries yields NotFound, and a request for a record owned by
a different account yields AccessDenied with no remote call made (the
remote-invocation count is zero); the two outcomes are distinct error
kinds. -/
theorem prediction_ownership_checks {CT : Type} (f : FernetCipher CT)
    (records : List ModelRecord) (acct : Nat) (mid1 mid2 : String)
    (rec : ModelRecord) (ct : CT) (features : List (List Int))
    (remote : String → String → Except Unit (List Int))
    (h1 : ∀ r ∈ records, ¬ (r.internal_model_id = mid1))
    (h2 : records.find? (fun r => r.internal_model_id == mid2) = some rec)
    (h3 : rec.user_id ≠ acct) :
    get_predictions f records acct mid1 ct features remote = (.notFound, 0)
    ∧ get_predictions f records acct mid2 ct features remote = (.accessDenied, 0)
    ∧ PredictOutcome.notFound ≠ PredictOutcome.accessDenied := by
  refine ⟨?_, ?_, by decide⟩
  · have hn : records.find? (fun r => r.internal_model_id == mid1) = none := by
      rw [List.find?_eq_none]
      intro x hx
      simpa using h1 x hx
    simp [get_predictions, hn]
  · simp [get_predictions, h2, h3]

theorem prediction_ownership_checks_witness :
    (∀ r ∈ [ModelRecord.mk "m1" "h1" 2 3], ¬ (r.internal_model_id = "zzz"))
    ∧ ([ModelRecord.mk "m1" "h1" 2 3].find? (fun r => r.internal_model_id == "m1")
        = some (ModelRecord.mk "m1" "h1" 2 3))
    ∧ get_predictions testCipher [ModelRecord.mk "m1" "h1" 2 3] 1 "zzz" "c" []
        (fun _ _ => .ok []) = (.notFound, 0)
    ∧ get_predictions testCipher [ModelRecord.mk "m1" "h1" 2 3] 1 "m1" "c" []
        (fun _ _ => .ok []) = (.accessDenied, 0) := by
  refine ⟨by decide, by decide, ?_, ?_⟩
  · exact (prediction_ownership_checks testCipher [ModelRecord.mk "m1" "h1" 2 3] 1 "zzz" "m1"
      (ModelRecord.mk "m1" "h1" 2 3) "c" [] (fun _ _ => .ok [])
      (by decide) (by decide) (by decide)).1
  · exact (prediction_ownership_checks testCipher [ModelRecord.mk "m1" "h1" 2 3] 1 "zzz" "m1"
      (ModelRecord.mk "m1" "h1" 2 3) "c" [] (fun _ _ => .ok [])
      (by decide) (by decide) (by decide)).2.1

/-- Claim C6: a training request whose feature rows have unequal column
counts, or whose target length differs from the feature row count, or
whose supplied feature-name count differs from the column count, fails
with a caller input error and the remote fit call is never made (the
remote-invocation count is zero). -/
theorem fit_dimension_validation {α β : Type} (features : List (List α)) (target : List β)
    (names : Option (List String)) (remoteFit : Unit → Except Unit String)
    (hf : features ≠ []) (ht : target ≠ []) :
    ((features.all fun row => row.length == (features.headD []).length) = false →
        ∃ e, fit_request_pipeline features target names remoteFit = (.error e, 0))
    ∧ (features.length ≠ target.length →
        ∃ e, fit_request_pipeline features target names remoteFit = (.error e, 0))
    ∧ (∀ ns, names = some ns → ns.length ≠ (features.headD []).length →
        ∃ e, fit_request_pipeline features target names remoteFit = (.error e, 0)) := by
  refine ⟨?_, ?_, ?_⟩
  · intro hbad
    exact ⟨_, pipeline_of_check_error features target names remoteFit _
      (check_error_of_ragged features target names hf ht hbad)⟩
  · intro hcount
    obtain ⟨e, he⟩ := check_error_of_count features target names hf ht hcount
    exact ⟨e, pipeline_of_check_error features target names remoteFit e he⟩
  · intro ns hn hlen
    subst hn
    obtain ⟨e, he⟩ := check_error_of_names features target ns hf ht hlen
    exact ⟨e, pipeline_of_check_error features target (some ns) remoteFit e he⟩

theorem fit_dimension_validation_witness :
    ([[(1 : Int)], [2, 3]] ≠ ([] : List (List Int)))
    ∧ ([(0 : Int)] ≠ ([] : List Int))
    ∧ (([[(1 : Int)], [2, 3]].all fun row => row.length == ([[(1 : Int)], [2, 3]].headD []).length) = false)
    ∧ (∃ e, fit_request_pipeline [[(1 : Int)], [2, 3]] [(0 : Int)] (some ["a", "b"])
        (fun _ => .ok "uid") = (.error e, 0)) := by
  refine ⟨by decide, by decide, by decide, ?_⟩
  exact (fit_dimension_validation [[(1 : Int)], [2, 3]] [(0 : Int)] (some ["a", "b"])
    (fun _ => .ok "uid") (by decide) (by decide)).1 (by decide)

/-- Claim C7: when decrypting a stored secret fails, decrypt_token
re-raises the failure (never swallows it), and through the model-training
path the failure surfaces as the 500 internal-error reply with an opaque
detail — not as any caller-fault reply such as 400. -/
theorem decrypt_failure_surfaces_internal {CT : Type} (f : FernetCipher CT) (ct : CT)
    (h : f.dec ct = .error ()) :
    decrypt_token f ct = .error "Could not decrypt token. Key mismatch or data corruption."
    ∧ (∀ remoteFit : String → Except ModelServiceErr String,
        fit_new_model_handler (train_new_model_result f ct remoteFit)
          = .status 500 "An internal error occurred while processing your request.")
    ∧ (∀ d : String, HttpReply.status 500 "An internal error occurred while processing your request."
        ≠ HttpReply.status 400 d) := by
  refine ⟨by simp [decrypt_token, h], ?_, ?_⟩
  · intro remoteFit
    have hmsg : strContains "Failed to decrypt TabPFN token" "decrypt" = true := by decide
    simp [train_new_model_result, train_decrypt_step, decrypt_token, h, fit_new_model_handler, hmsg]
  · intro d h'
    simp at h'

theorem decrypt_failure_surfaces_internal_witness :
    badCipher.dec "c" = .error ()
    ∧ decrypt_token badCipher "c" = .error "Could not decrypt token. Key mismatch or data corruption."
    ∧ fit_new_model_handler (train_new_model_result badCipher "c" (fun s => .ok s))
        = .status 500 "An internal error occurred while processing your request." := by
  refine ⟨rfl, ?_, ?_⟩
  · exact (decrypt_failure_surfaces_internal badCipher "c" rfl).1
  · exact (decrypt_failure_surfaces_internal badCipher "c" rfl).2.1 (fun s => .ok s)

/-- Claim C8: derivation of the cipher key from the master secret fails
at module initialization exactly when the secret is shorter than 32
bytes, and on success it is a deterministic function of the first 32
bytes of the secret. -/
theorem fernet_key_startup (s : List Nat) :
    ((∃ e, initFernetKey s = .error e) ↔ s.length < 32)
    ∧ (∀ t : List Nat, 32 ≤ s.length → 32 ≤ t.length → s.take 32 = t.take 32 →
        initFernetKey s = initFernetKey t) := by
  constructor
  · constructor
    · rintro ⟨e, he⟩
      by_contra hlen
      simp [initFernetKey, _get_fernet_key, hlen] at he
    · intro hlen
      refine ⟨"Failed to initialize Fernet encryption: SECRET_KEY must be at least 32 bytes long for Fernet encryption.", ?_⟩
      simp [initFernetKey, _get_fernet_key, hlen]
  · intro t hs htl htake
    have hs' : ¬ s.length < 32 := by omega
    have ht' : ¬ t.length < 32 := by omega
    simp [initFernetKey, _get_fernet_key, hs', ht', htake]

theorem fernet_key_startup_witness :
    32 ≤ (List.replicate 32 0).length
    ∧ initFernetKey (List.replicate 32 0) = initFernetKey (List.replicate 32 0 ++ [1]) := by
  refine ⟨by decide, ?_⟩
  exact (fernet_key_startup (List.replicate 32 0)).2 (List.replicate 32 0 ++ [1])
    (by decide) (by decide) (by decide)

/-- Claim C9: for every plaintext secret, decrypting the result of
encrypting it with the same process-wide cipher returns the original
secret, given the documented inverse contract of the underlying cipher. -/
theorem token_roundtrip {CT : Type} (f : FernetCipher CT)
    (hrt : ∀ s, f.dec (f.enc s) = .ok s) (t : String) :
    decrypt_token f (encrypt_token f t) = .ok t := by
  simp [decrypt_token, encrypt_token, hrt]

theorem token_roundtrip_witness :
    (∀ s, testCipher.dec (testCipher.enc s) = .ok s)
    ∧ decrypt_token testCipher (encrypt_token testCipher "tok-A") = .ok "tok-A" := by
  refine ⟨fun s => rfl, ?_⟩
  exact token_roundtrip testCipher (fun s => rfl) "tok-A"

/-- Claim C10: the keyword categories are probed in a fixed priority
order with authentication keywords first, so a stringified error
containing both an authentication keyword and a rate-limit keyword is
classified AuthInvalid and token verification returns False, not True. -/
theorem auth_keywords_take_priority (msg : String)
    (hauth : authKeywords.any (fun k => strContains (lowerStr msg) k) = true)
    (_hlimit : limitKeywords.any (fun k => strContains (lowerStr msg) k) = true) :
    classifyError msg = .authInvalid ∧ verify_tabpfn_token (some msg) = false := by
  constructor
  · simp [classifyError, hauth]
  · simp [verify_tabpfn_token, classifyError, hauth, outcomeResult]

theorem auth_keywords_take_priority_witness :
    (authKeywords.any (fun k => strContains (lowerStr "401 Unauthorized: Rate limit exceeded, 429") k) = true)
    ∧ (limitKeywords.any (fun k => strContains (lowerStr "401 Unauthorized: Rate limit exceeded, 429") k) = true)
    ∧ classifyError "401 Unauthorized: Rate limit exceeded, 429" = .authInvalid
    ∧ verify_tabpfn_token (some "401 Unauthorized: Rate limit exceeded, 429") = false := by
  refine ⟨by decide, by decide, ?_⟩
  exact auth_keywords_take_priority "401 Unauthorized: Rate limit exceeded, 429" (by decide) (by decide)
